import Mathlib

/-
  Verification of the Commit-Universe event engine specification.

  The repository stores the universe as data (constants.go, data fixtures and
  design documents).  The Event Scheduler / Entity State-Machine Engine that
  the specification describes lives outside the repository sources (the
  design document points to a separate simulation-engine repository and the
  work tracker records the engine work as not started), so the engine is
  modelled here from the specification, while the values that do appear in
  the sources (constants.go, the CivStatus type, the 16-entry AGES list, the
  time-scale table, the event catalogue) are embedded faithfully from them.
-/

namespace CommitUniverse

/-! ## Constants embedded from src/constants.go -/

/-- From src/constants.go: RNG seed for this timeline. -/
def UniverseSeed : Int := 1765085002

/-- From src/constants.go: the first commit. -/
def BigBangCommit : Int := 1

/-! ## Entity data model (from the data fixtures in the design document) -/

/-- Star life stages, from the star.c fixture (STAGE_PROTOSTAR .. STAGE_BLACK_HOLE). -/
inductive LifeStage
  | protostar
  | main_sequence
  | red_giant
  | white_dwarf
  | neutron_star
  | black_hole
deriving DecidableEq, Repr

/-- Star state, from the star.c fixture (life_stage field). -/
structure StarState where
  lifeStage : LifeStage
deriving DecidableEq, Repr

/-- Planet state, from the planet.py fixture (has_atmosphere, has_water,
has_life, has_intelligent_life flags). -/
structure PlanetState where
  hasAtmosphere : Bool
  hasWater : Bool
  hasLife : Bool
  hasIntelligentLife : Bool
deriving DecidableEq, Repr

/-- Civilization status, embedded from the civilization.ts fixture:
type CivStatus = "emerging" | "active" | "dormant" | "declining" | "extinct" | "transcended".
Note the source type also admits dormant, which the specification's status
set omits; the engine below never assigns it. -/
inductive CivStatus
  | emerging
  | active
  | dormant
  | declining
  | extinct
  | transcended
deriving DecidableEq, Repr

/-- Tech levels, embedded from the civilization.ts fixture (TechLevel enum,
Stone = 0 .. Transcendent = 7).  The work tracker replaces this with the
16-entry AGES list below. -/
inductive TechLevel
  | Stone
  | Agricultural
  | Industrial
  | Atomic
  | Spacefaring
  | Interstellar
  | Galactic
  | Transcendent
deriving DecidableEq, Repr

/-- The 16 civilization ages, embedded from WORK_TRACKER.md (AGES list,
prehistoric = 0 .. transcendent = 15). -/
def AGES : List String :=
  ["prehistoric", "tribal", "bronze", "iron",
   "classical", "medieval", "renaissance", "industrial",
   "modern", "atomic", "information", "space",
   "interplanetary", "interstellar", "galactic", "transcendent"]

/-- Civilization state.  Fields from the civilization.ts fixture (status,
population) and the work tracker's age system (current_age as an index into
AGES, with the tick at which the current age was entered and the number of
technology discoveries, used by the age-transition gate). -/
structure CivState where
  status : CivStatus
  population : Nat
  ageIdx : Nat
  ageEnteredAtTick : Nat
  discoveries : Nat
deriving DecidableEq, Repr

/-- Entity class payload: the engine's claims concern stars, planets and
civilizations. -/
inductive EntityState
  | star (s : StarState)
  | planet (p : PlanetState)
  | civ (c : CivState)
deriving DecidableEq, Repr

/-! ## Event catalogue (from the Event Types section of the design document
and the work tracker's civilization events) -/

/-- Event kinds, from the design document's Event Types section (cosmic,
planetary, life and civilization events) and the work tracker's AGE_ADVANCE
and related civilization events. -/
inductive EventKind
  | STAR_IGNITES
  | STAR_EVOLVE
  | SUPERNOVA
  | BLACK_HOLE_FORMS
  | ATMOSPHERE_DEVELOPS
  | OCEANS_FORM
  | ASTEROID_IMPACT
  | ABIOGENESIS
  | LIFE_MULTICELLULAR
  | LIFE_MASS_EXTINCTION
  | LIFE_INTELLIGENCE
  | CIVILIZATION_BEGINS
  | CIVILIZATION_ESTABLISH
  | CIVILIZATION_DISCOVERY
  | CIVILIZATION_AGE_ADVANCE
  | CIVILIZATION_WAR
  | CIVILIZATION_DARK_AGE
  | CIVILIZATION_RECOVERY
  | CIVILIZATION_COLLAPSE
  | CIVILIZATION_TRANSCENDENCE
deriving DecidableEq, Repr

/-- All registered event kinds, in catalogue order. -/
def allKinds : List EventKind :=
  [.STAR_IGNITES, .STAR_EVOLVE, .SUPERNOVA, .BLACK_HOLE_FORMS,
   .ATMOSPHERE_DEVELOPS, .OCEANS_FORM, .ASTEROID_IMPACT,
   .ABIOGENESIS,
   .LIFE_MULTICELLULAR, .LIFE_MASS_EXTINCTION, .LIFE_INTELLIGENCE,
   .CIVILIZATION_BEGINS, .CIVILIZATION_ESTABLISH, .CIVILIZATION_DISCOVERY,
   .CIVILIZATION_AGE_ADVANCE, .CIVILIZATION_WAR, .CIVILIZATION_DARK_AGE,
   .CIVILIZATION_RECOVERY, .CIVILIZATION_COLLAPSE, .CIVILIZATION_TRANSCENDENCE]

/-- Event kinds whose names carry the LIFE or CIVILIZATION marker
(the LIFE and CIVILIZATION families of the event catalogue). -/
def lifeCivKind : EventKind → Bool
  | .LIFE_MULTICELLULAR => true
  | .LIFE_MASS_EXTINCTION => true
  | .LIFE_INTELLIGENCE => true
  | .CIVILIZATION_BEGINS => true
  | .CIVILIZATION_ESTABLISH => true
  | .CIVILIZATION_DISCOVERY => true
  | .CIVILIZATION_AGE_ADVANCE => true
  | .CIVILIZATION_WAR => true
  | .CIVILIZATION_DARK_AGE => true
  | .CIVILIZATION_RECOVERY => true
  | .CIVILIZATION_COLLAPSE => true
  | .CIVILIZATION_TRANSCENDENCE => true
  | _ => false

/-- Modelled from the spec: the work tracker leaves the minimum duration of
each age undefined, so the per-age minimum tick-age-in-era of the
age-transition gate is modelled as configuration. -/
def minTicksInAge (i : Nat) : Nat := 100 * (i + 1)

/-- Modelled from the spec: the applicability predicate of each event kind
(Event Catalog, section 4.2); the engine that evaluates prerequisites is not
in the repository sources.  Life and civilization events on a planet require
hasLife; civilization status events require the status named by their
transition; the age-advance gate requires a minimum tick-age-in-era or a
discovery prerequisite. -/
def prereq (k : EventKind) (t : Nat) (s : EntityState) : Bool :=
  match k, s with
  | .STAR_IGNITES, .star st => decide (st.lifeStage = .protostar)
  | .STAR_EVOLVE, .star st => decide (st.lifeStage = .main_sequence)
  | .SUPERNOVA, .star st => decide (st.lifeStage = .red_giant)
  | .BLACK_HOLE_FORMS, .star st => decide (st.lifeStage = .red_giant)
  | .ATMOSPHERE_DEVELOPS, .planet p => !p.hasAtmosphere
  | .OCEANS_FORM, .planet p => p.hasAtmosphere && !p.hasWater
  | .ASTEROID_IMPACT, .planet _ => true
  | .ABIOGENESIS, .planet p => p.hasAtmosphere && p.hasWater && !p.hasLife
  | .LIFE_MULTICELLULAR, .planet p => p.hasLife
  | .LIFE_MASS_EXTINCTION, .planet p => p.hasLife
  | .LIFE_INTELLIGENCE, .planet p => p.hasLife && !p.hasIntelligentLife
  | .CIVILIZATION_BEGINS, .planet p => p.hasLife && p.hasIntelligentLife
  | .CIVILIZATION_ESTABLISH, .civ c => decide (c.status = .emerging)
  | .CIVILIZATION_DISCOVERY, .civ c => decide (c.status = .active)
  | .CIVILIZATION_AGE_ADVANCE, .civ c =>
      decide (c.status = .active) && decide (c.ageIdx + 1 < 16) &&
        (decide (minTicksInAge c.ageIdx ≤ t - c.ageEnteredAtTick) ||
         decide (c.ageIdx < c.discoveries))
  | .CIVILIZATION_WAR, .civ c => decide (c.status = .active)
  | .CIVILIZATION_DARK_AGE, .civ c => decide (c.status = .active)
  | .CIVILIZATION_RECOVERY, .civ c => decide (c.status = .declining)
  | .CIVILIZATION_COLLAPSE, .civ c => decide (c.status = .declining)
  | .CIVILIZATION_TRANSCENDENCE, .civ c => decide (c.status = .active)
  | _, _ => false

/-- Modelled from the spec: star mutations follow the strictly forward
life-stage machine of section 3. -/
def mutateStar (k : EventKind) (s : StarState) : StarState :=
  match k with
  | .STAR_IGNITES => { s with lifeStage := .main_sequence }
  | .STAR_EVOLVE => { s with lifeStage := .red_giant }
  | .SUPERNOVA => { s with lifeStage := .neutron_star }
  | .BLACK_HOLE_FORMS => { s with lifeStage := .black_hole }
  | _ => s

/-- Modelled from the spec: planet mutations; abiogenesis sets hasLife,
intelligence and civilization emergence set hasIntelligentLife (section 3:
hasIntelligentLife may only become true if hasLife is true, and is
permanently true once a civilization exists). -/
def mutatePlanet (k : EventKind) (p : PlanetState) : PlanetState :=
  match k with
  | .ATMOSPHERE_DEVELOPS => { p with hasAtmosphere := true }
  | .OCEANS_FORM => { p with hasWater := true }
  | .ABIOGENESIS => { p with hasLife := true }
  | .LIFE_INTELLIGENCE => { p with hasIntelligentLife := true }
  | .CIVILIZATION_BEGINS => { p with hasIntelligentLife := true }
  | _ => p

/-- Modelled from the spec: the state of a newly created Civilization entity
(emerging, age prehistoric). -/
def newCiv (t : Nat) : CivState :=
  { status := .emerging, population := 1000000, ageIdx := 0,
    ageEnteredAtTick := t, discoveries := 0 }

/-- Modelled from the spec: civilization mutations.  Status transitions
follow section 3 (emerging to active, active to declining or transcended,
declining to active or extinct); population is clamped at 0 and population 0
forces status extinct; age advances are monotonic and reset the
age-entered tick. -/
def mutateCiv (k : EventKind) (t : Nat) (c : CivState) : CivState :=
  match k with
  | .CIVILIZATION_ESTABLISH => { c with status := .active }
  | .CIVILIZATION_DISCOVERY => { c with discoveries := c.discoveries + 1 }
  | .CIVILIZATION_AGE_ADVANCE =>
      { c with ageIdx := c.ageIdx + 1, ageEnteredAtTick := t }
  | .CIVILIZATION_WAR =>
      let pop := c.population / 2
      { c with population := pop,
               status := if pop = 0 then .extinct else c.status }
  | .CIVILIZATION_DARK_AGE => { c with status := .declining }
  | .CIVILIZATION_RECOVERY => { c with status := .active }
  | .CIVILIZATION_COLLAPSE => { c with status := .extinct }
  | .CIVILIZATION_TRANSCENDENCE => { c with status := .transcended }
  | _ => c

/-- Modelled from the spec: the mutation function of the Event Catalog
(section 4.2); returns the mutated entity state and, for civilization
emergence on a planet, the state of the created Civilization entity. -/
def mutate (k : EventKind) (t : Nat) : EntityState → EntityState × Option EntityState
  | .star s => (.star (mutateStar k s), none)
  | .planet p =>
      (.planet (mutatePlanet k p),
       if k = .CIVILIZATION_BEGINS then some (.civ (newCiv t)) else none)
  | .civ c => (.civ (mutateCiv k t c), none)

/-! ## Chronicle Recorder and Entity Store -/

/-- A chronicle entry: tick, event kind, narrative text (section 4.5). -/
structure ChronicleEntry where
  tick : Nat
  kind : EventKind
  text : String
deriving DecidableEq, Repr

/-- Modelled from the spec: the narrative text template of each event kind;
the prose generator is an external collaborator, stubbed by fixed templates. -/
def chronicleText : EventKind → String
  | .STAR_IGNITES => "a star ignites"
  | .STAR_EVOLVE => "star enters red giant phase"
  | .SUPERNOVA => "supernova"
  | .BLACK_HOLE_FORMS => "black hole forms"
  | .ATMOSPHERE_DEVELOPS => "atmosphere develops"
  | .OCEANS_FORM => "oceans form"
  | .ASTEROID_IMPACT => "asteroid impact"
  | .ABIOGENESIS => "life begins"
  | .LIFE_MULTICELLULAR => "multicellular life"
  | .LIFE_MASS_EXTINCTION => "mass extinction"
  | .LIFE_INTELLIGENCE => "intelligence emerges"
  | .CIVILIZATION_BEGINS => "civilization begins"
  | .CIVILIZATION_ESTABLISH => "civilization establishes itself"
  | .CIVILIZATION_DISCOVERY => "discovery"
  | .CIVILIZATION_AGE_ADVANCE => "a new age dawns"
  | .CIVILIZATION_WAR => "war"
  | .CIVILIZATION_DARK_AGE => "dark age"
  | .CIVILIZATION_RECOVERY => "recovery"
  | .CIVILIZATION_COLLAPSE => "civilization collapses"
  | .CIVILIZATION_TRANSCENDENCE => "transcendence"

/-- An entity of the store: id, creation tick, append-only history, class
state (section 3: all entities share id, formedAtTick, status, history). -/
structure Entity where
  id : String
  formedAtTick : Nat
  history : List ChronicleEntry
  state : EntityState
deriving DecidableEq, Repr

/-- The chronicle entry recorded for an application of kind k at tick t. -/
def chronicleEntryFor (t : Nat) (k : EventKind) : ChronicleEntry :=
  { tick := t, kind := k, text := chronicleText k }

/-- The target entity after an event is applied to it: mutated state and the
chronicle entry appended to its history (sections 4.4 and 4.5). -/
def updatedEntity (t : Nat) (k : EventKind) (e : Entity) : Entity :=
  { e with state := (mutate k t e.state).1,
           history := e.history ++ [chronicleEntryFor t k] }

/-- Entities created by an event application (civilization emergence creates
a Civilization entity, formed at the current tick). -/
def createdEntities (t : Nat) (k : EventKind) (e : Entity) : List Entity :=
  match (mutate k t e.state).2 with
  | none => []
  | some cs =>
      [{ id := "civ-at-" ++ toString t, formedAtTick := t,
         history := [chronicleEntryFor t k], state := cs }]

/-- Modelled from the spec: applying an event of kind k to the entity at
index i of the store (mutation, chronicle append, creation of spawned
entities); the Scheduler that performs this is not in the repository
sources. -/
def applyTo (t : Nat) (k : EventKind) (i : Nat) (store : List Entity) : List Entity :=
  match store.get? i with
  | none => store
  | some e => (store.set i (updatedEntity t k e)) ++ createdEntities t k e

/-! ## Eligibility Index (section 4.3) -/

/-- Scheduler configuration: the inclusive range of the per-tick event count
draw and the weight function of the Event Catalog (sections 4.2 and 4.4). -/
structure Config where
  nMin : Nat
  nMax : Nat
  weight : EventKind → EntityState → Nat

/-- Eligible (index, kind, weight) triples contributed by one entity. -/
def kindPairs (cfg : Config) (t : Nat) (i : Nat) (e : Entity) :
    List (Nat × EventKind × Nat) :=
  allKinds.filterMap fun k =>
    if prereq k t e.state then
      if 0 < cfg.weight k e.state then some (i, k, cfg.weight k e.state) else none
    else none

/-- Modelled from the spec: the Eligibility Index (section 4.3) recomputed
from the current store: all (entityIndex, eventKind, weight) triples whose
prerequisite holds and whose weight is positive; the engine is not in the
repository sources. -/
def eligibleFrom (cfg : Config) (t : Nat) : Nat → List Entity → List (Nat × EventKind × Nat)
  | _, [] => []
  | i, e :: rest => kindPairs cfg t i e ++ eligibleFrom cfg t (i + 1) rest

/-- The Eligibility Index of a store at tick t. -/
def eligiblePairs (cfg : Config) (t : Nat) (store : List Entity) :
    List (Nat × EventKind × Nat) :=
  eligibleFrom cfg t 0 store

/-- The prerequisite of kind k evaluated on the entity currently at index i
of the store (false when there is no such entity). -/
def prereqAt (t : Nat) (store : List Entity) (i : Nat) (k : EventKind) : Bool :=
  match store.get? i with
  | none => false
  | some e => prereq k t e.state

/-! ## Randomness and weighted sampling (section 4.4) -/

/-- Modelled from the spec: the seeded random source (section 4.4 tie-break
rule; design note 5); the engine is not in the repository sources.  A linear
congruential generator over Nat. -/
def rngNext (s : Nat) : Nat × Nat :=
  let s' := (s * 1103515245 + 12345) % 2147483648
  (s', s')

/-- Total weight of an eligibility index. -/
def totalWeight (ps : List (Nat × EventKind × Nat)) : Nat :=
  (ps.map fun p => p.2.2).sum

/-- Weight-proportional selection: walk the index consuming r. -/
def pickWeighted : List (Nat × EventKind × Nat) → Nat → Option (Nat × EventKind)
  | [], _ => none
  | (i, k, w) :: rest, r => if r < w then some (i, k) else pickWeighted rest (r - w)

/-- An applied event, as reported in the TickResult (section 3: kind, target,
tick applied, resulting chronicle text). -/
structure Applied where
  kind : EventKind
  targetIdx : Nat
  tick : Nat
  text : String
deriving DecidableEq, Repr

/-- Modelled from the spec: one sampling draw of the Scheduler (section 4.4
failure semantics): sample a pair weight-proportionally, re-check its
prerequisite immediately before mutation, and if the re-validation fails,
skip the pair and redraw rather than apply it; fuel bounds the redraws. -/
def drawOne (t : Nat) (store : List Entity) :
    Nat → List (Nat × EventKind × Nat) → Nat → Option (Applied × List Entity) × Nat
  | 0, _, rng => (none, rng)
  | fuel + 1, idx, rng =>
    if totalWeight idx = 0 then (none, rng)
    else
      match pickWeighted idx ((rngNext rng).1 % totalWeight idx) with
      | none => (none, (rngNext rng).2)
      | some (i, k) =>
        if prereqAt t store i k then
          (some ({ kind := k, targetIdx := i, tick := t, text := chronicleText k },
                 applyTo t k i store), (rngNext rng).2)
        else
          drawOne t store fuel
            (idx.filter fun q => !(decide (q.1 = i) && decide (q.2.1 = k))) (rngNext rng).2

/-- Modelled from the spec: the per-tick draw loop of the Scheduler (section
4.4 step 2): repeat n times, recomputing the Eligibility Index each time,
stopping early when it is empty. -/
def runDraws (cfg : Config) (t : Nat) :
    Nat → List Entity → Nat → List Applied × List Entity × Nat
  | 0, store, rng => ([], store, rng)
  | n + 1, store, rng =>
    match eligiblePairs cfg t store with
    | [] => ([], store, rng)
    | i0 :: irest =>
      match drawOne t store (i0 :: irest).length (i0 :: irest) rng with
      | (none, rng') => ([], store, rng')
      | (some (ev, store'), rng') =>
        let rest := runDraws cfg t n store' rng'
        (ev :: rest.1, rest.2.1, rest.2.2)

/-! ## Epoch Clock and time scale (sections 4.1 and 6) -/

/-- The eras of the time-scale table (section 6: early-universe,
galaxy-formation, stellar-evolution, planetary-development,
civilization-emergence, space-age). -/
inductive Era
  | earlyUniverse
  | galaxyFormation
  | stellarEvolution
  | planetaryDevelopment
  | civilizationEmergence
  | spaceAge
deriving DecidableEq, Repr

/-- Time delta per tick of each era, in years, from the design document's
time-scale table (10 million years down to years per commit; the two
range-valued rows are fixed at representative values inside their ranges). -/
def timeDeltaYears : Era → Nat
  | .earlyUniverse => 10000000
  | .galaxyFormation => 1000000
  | .stellarEvolution => 100000
  | .planetaryDevelopment => 10000
  | .civilizationEmergence => 500
  | .spaceAge => 5

/-- A row of the time-scale table (section 6: era, ticksPerEraStart,
timeDeltaPerTick). -/
structure TimeScaleEntry where
  era : Era
  ticksPerEraStart : Nat
  timeDeltaPerTickYears : Nat
deriving DecidableEq, Repr

/-- The time-scale table, from the design document's time-scale and
milestone tables (the early universe is the first 1000 commits; later era
boundaries follow the milestone commits). -/
def timeScaleTable : List TimeScaleEntry :=
  [{ era := .earlyUniverse, ticksPerEraStart := 1,
     timeDeltaPerTickYears := timeDeltaYears .earlyUniverse },
   { era := .galaxyFormation, ticksPerEraStart := 1001,
     timeDeltaPerTickYears := timeDeltaYears .galaxyFormation },
   { era := .stellarEvolution, ticksPerEraStart := 10001,
     timeDeltaPerTickYears := timeDeltaYears .stellarEvolution },
   { era := .planetaryDevelopment, ticksPerEraStart := 50001,
     timeDeltaPerTickYears := timeDeltaYears .planetaryDevelopment },
   { era := .civilizationEmergence, ticksPerEraStart := 100001,
     timeDeltaPerTickYears := timeDeltaYears .civilizationEmergence },
   { era := .spaceAge, ticksPerEraStart := 250001,
     timeDeltaPerTickYears := timeDeltaYears .spaceAge }]

/-- Modelled from the spec: currentEra is a pure function of tick count
(section 4.1), piecewise over the time-scale table. -/
def currentEra (t : Nat) : Era :=
  if t ≤ 1000 then .earlyUniverse
  else if t ≤ 10000 then .galaxyFormation
  else if t ≤ 50000 then .stellarEvolution
  else if t ≤ 100000 then .planetaryDevelopment
  else if t ≤ 250000 then .civilizationEmergence
  else .spaceAge

/-! ## Snapshot and tick (sections 4.4 and 6) -/

/-- A snapshot: the full Entity Store, the tick counter, cosmic age (kept in
years; CosmicAgeMyr is this value in millions of years) and the random
source state (design note 4: a single seed carried in the snapshot). -/
structure Snapshot where
  entities : List Entity
  tickCount : Nat
  cosmicAgeYears : Nat
  rng : Nat
deriving DecidableEq, Repr

/-- Cosmic age of a snapshot in millions of years (the CosmicAgeMyr value of
src/constants.go). -/
def cosmicAgeMyr (s : Snapshot) : ℚ := (s.cosmicAgeYears : ℚ) / 1000000

/-- The TickResult returned to the invoker (section 6: eventsApplied,
newTickCount, newCosmicAge). -/
structure TickResult where
  eventsApplied : List Applied
  newTickCount : Nat
  newCosmicAgeYears : Nat
deriving DecidableEq, Repr

/-- Modelled from the spec: the Scheduler's per-tick algorithm (section 4.4):
draw n uniformly from the configured inclusive range, run the draw loop, and
advance the Epoch Clock exactly once; the engine is not in the repository
sources. -/
def tick (cfg : Config) (snap : Snapshot) : Snapshot × TickResult :=
  let t := snap.tickCount
  let span := cfg.nMax + 1 - cfg.nMin
  let n := cfg.nMin + (if span = 0 then 0 else (rngNext snap.rng).1 % span)
  let out := runDraws cfg t n snap.entities (rngNext snap.rng).2
  let newTick := t + 1
  let newAge := snap.cosmicAgeYears + timeDeltaYears (currentEra t)
  ({ entities := out.2.1, tickCount := newTick, cosmicAgeYears := newAge,
     rng := out.2.2 },
   { eventsApplied := out.1, newTickCount := newTick, newCosmicAgeYears := newAge })

/-- Iterated ticks: final snapshot and the concatenated event sequence. -/
def runTicks (cfg : Config) : Nat → Snapshot → Snapshot × List Applied
  | 0, s => (s, [])
  | n + 1, s =>
    let step := tick cfg s
    let rest := runTicks cfg n step.1
    (rest.1, step.2.eventsApplied ++ rest.2)

/-- A run of N ticks from a starting snapshot with the random source seeded
(design note 5: a single seed carried in the snapshot). -/
def runFromSeed (cfg : Config) (seed : Nat) (s : Snapshot) (n : Nat) :
    Snapshot × List Applied :=
  runTicks cfg n { s with rng := seed }

/-- Modelled from the spec: the Big Bang (commit number 1) initializes the
universe with an empty store, tick counter at BigBangCommit, cosmic age 0
and the timeline seed of src/constants.go. -/
def initialSnapshot : Snapshot :=
  { entities := [], tickCount := Int.toNat BigBangCommit, cosmicAgeYears := 0,
    rng := Int.toNat UniverseSeed }

/-! ## Persistence boundary (sections 5 to 7) -/

/-- Injected persistence outcomes for a tick (load and save can fail). -/
structure PersistEnv where
  loadFails : Bool
  saveFails : Bool
deriving DecidableEq, Repr

/-- The structured failure surfaced to the invoker (section 7 taxonomy:
PersistenceError on load or save). -/
inductive TickFailure
  | persistenceLoad
  | persistenceSave
deriving DecidableEq, Repr

/-- Every persistence failure is retryable (section 7: surfaced to the
invoker as a retryable failure). -/
def retryableFailure : TickFailure → Bool := fun _ => true

/-- Whether an outcome is a structured failure. -/
def failedOutcome : Except TickFailure TickResult → Bool
  | .error _ => true
  | .ok _ => false

/-- Whether an outcome is a retryable structured failure. -/
def retryableOutcome : Except TickFailure TickResult → Bool
  | .error f => retryableFailure f
  | .ok _ => false

/-- Modelled from the spec: a tick across the persistence boundary (sections
5 to 7): load the stored snapshot, run the tick, save; on load or save
failure the tick aborts, nothing is flushed and the stored snapshot is left
unchanged; the engine is not in the repository sources.  Returns the stored
snapshot after the call and the outcome surfaced to the invoker. -/
def tickPersisted (cfg : Config) (env : PersistEnv) (stored : Snapshot) :
    Snapshot × Except TickFailure TickResult :=
  if env.loadFails then (stored, .error .persistenceLoad)
  else
    let step := tick cfg stored
    if env.saveFails then (stored, .error .persistenceSave)
    else (step.1, .ok step.2)

/-! ## List helpers -/

theorem getq_some_lt {α : Type} : ∀ {l : List α} {i : Nat} {a : α},
    l.get? i = some a → i < l.length := by
  intro l
  induction l with
  | nil => intro i a h; simp [List.get?] at h
  | cons x xs ih =>
    intro i a h
    cases i with
    | zero => simp
    | succ j =>
      simp only [List.get?] at h
      exact Nat.succ_lt_succ (ih h)

theorem lt_getq_some {α : Type} : ∀ {l : List α} {i : Nat},
    i < l.length → ∃ a, l.get? i = some a := by
  intro l
  induction l with
  | nil => intro i h; simp at h
  | cons x xs ih =>
    intro i h
    cases i with
    | zero => exact ⟨x, rfl⟩
    | succ j => exact ih (Nat.lt_of_succ_lt_succ h)

theorem getq_mem {α : Type} : ∀ {l : List α} {i : Nat} {a : α},
    l.get? i = some a → a ∈ l := by
  intro l
  induction l with
  | nil => intro i a h; simp [List.get?] at h
  | cons x xs ih =>
    intro i a h
    cases i with
    | zero =>
      simp only [List.get?] at h
      injection h with h
      rw [← h]
      exact List.mem_cons_self x xs
    | succ j => exact List.mem_cons_of_mem x (ih h)

theorem getq_set_self {α : Type} : ∀ (l : List α) (i : Nat) (a : α),
    i < l.length → (l.set i a).get? i = some a := by
  intro l
  induction l with
  | nil => intro i a h; simp at h
  | cons x xs ih =>
    intro i a h
    cases i with
    | zero => rfl
    | succ j => exact ih j a (Nat.lt_of_succ_lt_succ h)

theorem getq_set_other {α : Type} : ∀ (l : List α) (i j : Nat) (a : α),
    i ≠ j → (l.set i a).get? j = l.get? j := by
  intro l
  induction l with
  | nil => intro i j a _; simp
  | cons x xs ih =>
    intro i j a hne
    cases i with
    | zero =>
      cases j with
      | zero => exact absurd rfl hne
      | succ j' => rfl
    | succ i' =>
      cases j with
      | zero => rfl
      | succ j' => exact ih i' j' a (fun he => hne (by rw [he]))

theorem getq_append_left {α : Type} : ∀ (l m : List α) (i : Nat),
    i < l.length → (l ++ m).get? i = l.get? i := by
  intro l
  induction l with
  | nil => intro m i h; simp at h
  | cons x xs ih =>
    intro m i h
    cases i with
    | zero => rfl
    | succ j => exact ih m j (Nat.lt_of_succ_lt_succ h)

theorem take_append_self {α : Type} : ∀ (a b : List α), (a ++ b).take a.length = a := by
  intro a
  induction a with
  | nil => intro b; rfl
  | cons x xs ih =>
    intro b
    simp only [List.cons_append, List.length_cons, List.take, List.append_eq]
    rw [ih]

theorem all_set {α : Type} {P : α → Bool} {l : List α} {i : Nat} {a : α}
    (h1 : l.all P = true) (h2 : P a = true) : (l.set i a).all P = true := by
  rw [List.all_eq_true] at h1 ⊢
  intro x hx
  rcases List.mem_or_eq_of_mem_set hx with h | h
  · exact h1 x h
  · exact h ▸ h2

/-! ## Eligibility: the index only contains pairs whose prerequisite holds -/

theorem kindPairs_mem {cfg : Config} {t b j : Nat} {k : EventKind} {w : Nat} {e : Entity}
    (h : (j, k, w) ∈ kindPairs cfg t b e) : j = b ∧ prereq k t e.state = true := by
  unfold kindPairs at h
  rcases List.mem_filterMap.mp h with ⟨k', _, hk⟩
  by_cases hp : prereq k' t e.state = true
  · rw [if_pos hp] at hk
    by_cases hw : 0 < cfg.weight k' e.state
    · rw [if_pos hw] at hk
      simp only [Option.some.injEq, Prod.mk.injEq] at hk
      exact ⟨hk.1.symm, hk.2.1 ▸ hp⟩
    · rw [if_neg hw] at hk; exact absurd hk (by simp)
  · rw [if_neg hp] at hk; exact absurd hk (by simp)

theorem eligibleFrom_mem {cfg : Config} {t : Nat} :
    ∀ (store : List Entity) (b j : Nat) (k : EventKind) (w : Nat),
      (j, k, w) ∈ eligibleFrom cfg t b store →
      ∃ d e, j = b + d ∧ store.get? d = some e ∧ prereq k t e.state = true := by
  intro store
  induction store with
  | nil => intro b j k w h; simp [eligibleFrom] at h
  | cons e0 rest ih =>
    intro b j k w h
    unfold eligibleFrom at h
    rcases List.mem_append.mp h with h | h
    · obtain ⟨hj, hp⟩ := kindPairs_mem h
      exact ⟨0, e0, by omega, rfl, hp⟩
    · obtain ⟨d, e, hj, hg, hp⟩ := ih (b + 1) j k w h
      exact ⟨d + 1, e, by omega, hg, hp⟩

theorem eligiblePairs_prereq {cfg : Config} {t : Nat} {store : List Entity}
    {j : Nat} {k : EventKind} {w : Nat}
    (h : (j, k, w) ∈ eligiblePairs cfg t store) : prereqAt t store j k = true := by
  obtain ⟨d, e, hj, hg, hp⟩ := eligibleFrom_mem store 0 j k w h
  have hd : j = d := by omega
  unfold prereqAt
  rw [hd, hg]
  exact hp

/-! ## The draw step applies only re-validated events -/

theorem drawOne_some {t : Nat} {store : List Entity} :
    ∀ (fuel : Nat) (idx : List (Nat × EventKind × Nat)) (rng : Nat)
      (ev : Applied) (store' : List Entity) (rng' : Nat),
      drawOne t store fuel idx rng = (some (ev, store'), rng') →
      prereqAt t store ev.targetIdx ev.kind = true ∧
        store' = applyTo t ev.kind ev.targetIdx store ∧ ev.tick = t := by
  intro fuel
  induction fuel with
  | zero => intro idx rng ev store' rng' h; simp [drawOne] at h
  | succ f ih =>
    intro idx rng ev store' rng' h
    unfold drawOne at h
    split at h
    · simp at h
    · split at h
      · simp at h
      · split at h
        · rename_i i k _ hpre
          simp only [Prod.mk.injEq, Option.some.injEq] at h
          obtain ⟨⟨h1, h2⟩, -⟩ := h
          subst h1
          subst h2
          exact ⟨hpre, rfl, rfl⟩
        · exact ih _ _ _ _ _ h

/-! ## Predicate preservation through the draw loop -/

theorem applyTo_all {P : Entity → Bool} {t : Nat} {k : EventKind} {i : Nat}
    {store : List Entity}
    (hstore : store.all P = true)
    (hupd : ∀ e, store.get? i = some e → P (updatedEntity t k e) = true)
    (hnew : ∀ e x, store.get? i = some e → x ∈ createdEntities t k e → P x = true) :
    (applyTo t k i store).all P = true := by
  unfold applyTo
  cases hg : store.get? i with
  | none => exact hstore
  | some e =>
    rw [List.all_append]
    refine Bool.and_eq_true .. ▸ ⟨all_set hstore (hupd e hg), ?_⟩
    rw [List.all_eq_true]
    intro x hx
    exact hnew e x hg hx

theorem drawOne_all {P : Entity → Bool} {t : Nat} {store : List Entity}
    (hstore : store.all P = true)
    (hupd : ∀ k e, prereq k t e.state = true → P e = true → P (updatedEntity t k e) = true)
    (hnew : ∀ k e x, prereq k t e.state = true → x ∈ createdEntities t k e → P x = true)
    {fuel : Nat} {idx : List (Nat × EventKind × Nat)} {rng : Nat}
    {ev : Applied} {store' : List Entity} {rng' : Nat}
    (h : drawOne t store fuel idx rng = (some (ev, store'), rng')) :
    store'.all P = true := by
  obtain ⟨hpre, hst, -⟩ := drawOne_some fuel idx rng ev store' rng' h
  subst hst
  unfold prereqAt at hpre
  cases hg : store.get? ev.targetIdx with
  | none => rw [hg] at hpre; simp at hpre
  | some e =>
    rw [hg] at hpre
    have hpre' : prereq ev.kind t e.state = true := hpre
    have hPe : P e = true := List.all_eq_true.mp hstore e (getq_mem hg)
    refine applyTo_all hstore ?_ ?_
    · intro e' hg'
      rw [hg] at hg'
      injection hg' with hg'
      rw [← hg']
      exact hupd ev.kind e hpre' hPe
    · intro e' x hg' hx
      rw [hg] at hg'
      injection hg' with hg'
      rw [← hg'] at hx
      exact hnew ev.kind e x hpre' hx

theorem runDraws_all {cfg : Config} {P : Entity → Bool} {t : Nat}
    (hupd : ∀ k e, prereq k t e.state = true → P e = true → P (updatedEntity t k e) = true)
    (hnew : ∀ k e x, prereq k t e.state = true → x ∈ createdEntities t k e → P x = true) :
    ∀ (n : Nat) (store : List Entity) (rng : Nat), store.all P = true →
      ((runDraws cfg t n store rng).2.1).all P = true := by
  intro n
  induction n with
  | zero => intro store rng hstore; exact hstore
  | succ m ih =>
    intro store rng hstore
    unfold runDraws
    split
    · exact hstore
    · split
      · exact hstore
      · rename_i heq ev store' rng' hdraw
        exact ih store' rng' (drawOne_all hstore hupd hnew hdraw)

theorem tick_all {cfg : Config} {P : Entity → Bool} {snap : Snapshot}
    (hupd : ∀ k e, prereq k snap.tickCount e.state = true → P e = true →
        P (updatedEntity snap.tickCount k e) = true)
    (hnew : ∀ k e x, prereq k snap.tickCount e.state = true →
        x ∈ createdEntities snap.tickCount k e → P x = true)
    (hstore : snap.entities.all P = true) :
    ((tick cfg snap).1.entities).all P = true := by
  unfold tick
  exact runDraws_all hupd hnew _ snap.entities _ hstore

/-! ## The store only ever extends: entities keep id, creation tick, and
their history grows by appends -/

def StoreExtends (store store' : List Entity) : Prop :=
  ∀ i e, store.get? i = some e →
    ∃ e', store'.get? i = some e' ∧ e'.id = e.id ∧
      e'.formedAtTick = e.formedAtTick ∧ ∃ s, e'.history = e.history ++ s

theorem storeExtends_refl (store : List Entity) : StoreExtends store store := by
  intro i e h
  exact ⟨e, h, rfl, rfl, [], by simp⟩

theorem storeExtends_trans {a b c : List Entity}
    (h1 : StoreExtends a b) (h2 : StoreExtends b c) : StoreExtends a c := by
  intro i e h
  obtain ⟨e', hg', hid', hf', s', hh'⟩ := h1 i e h
  obtain ⟨e'', hg'', hid'', hf'', s'', hh''⟩ := h2 i e' hg'
  exact ⟨e'', hg'', by rw [hid'', hid'], by rw [hf'', hf'],
         s' ++ s'', by rw [hh'', hh', List.append_assoc]⟩

theorem applyTo_extends (t : Nat) (k : EventKind) (i : Nat) (store : List Entity) :
    StoreExtends store (applyTo t k i store) := by
  unfold applyTo
  cases hg : store.get? i with
  | none => exact storeExtends_refl store
  | some e0 =>
    intro j e hj
    have hjlt : j < store.length := getq_some_lt hj
    have hjlt' : j < (store.set i (updatedEntity t k e0)).length := by
      rw [List.length_set]; exact hjlt
    by_cases hji : j = i
    · subst hji
      have he : e = e0 := by rw [hj] at hg; injection hg
      subst he
      refine ⟨updatedEntity t k e, ?_, rfl, rfl, [chronicleEntryFor t k], rfl⟩
      rw [getq_append_left _ _ _ hjlt', getq_set_self _ _ _ hjlt]
    · refine ⟨e, ?_, rfl, rfl, [], by simp⟩
      rw [getq_append_left _ _ _ hjlt', getq_set_other _ _ _ _ (fun he => hji he.symm)]
      exact hj

theorem drawOne_extends {t : Nat} {store : List Entity}
    {fuel : Nat} {idx : List (Nat × EventKind × Nat)} {rng : Nat}
    {ev : Applied} {store' : List Entity} {rng' : Nat}
    (h : drawOne t store fuel idx rng = (some (ev, store'), rng')) :
    StoreExtends store store' := by
  obtain ⟨-, hst, -⟩ := drawOne_some fuel idx rng ev store' rng' h
  subst hst
  exact applyTo_extends t ev.kind ev.targetIdx store

theorem runDraws_extends {cfg : Config} {t : Nat} :
    ∀ (n : Nat) (store : List Entity) (rng : Nat),
      StoreExtends store (runDraws cfg t n store rng).2.1 := by
  intro n
  induction n with
  | zero => intro store rng; exact storeExtends_refl store
  | succ m ih =>
    intro store rng
    unfold runDraws
    split
    · exact storeExtends_refl store
    · split
      · exact storeExtends_refl store
      · rename_i heq ev store' rng' hdraw
        exact storeExtends_trans (drawOne_extends hdraw) (ih store' rng')

theorem tick_extends (cfg : Config) (snap : Snapshot) :
    StoreExtends snap.entities (tick cfg snap).1.entities := by
  unfold tick
  exact runDraws_extends _ snap.entities _

/-! ## Claim-level predicates -/

/-- The planet invariant of section 3: hasIntelligentLife implies hasLife
(true on non-planet entities). -/
def planetInvB (e : Entity) : Bool :=
  match e.state with
  | .planet p => !p.hasIntelligentLife || p.hasLife
  | _ => true

/-- An entity was formed at a tick count of at least BigBangCommit. -/
def formedPos (e : Entity) : Bool := decide (1 ≤ e.formedAtTick)

/-- History of the entity at index i of a store (empty when absent). -/
def entityHistoryAt (store : List Entity) (i : Nat) : List ChronicleEntry :=
  match store.get? i with
  | none => []
  | some e => e.history

/-- Statuses admitted by the specification for civilizations: everything the
CivStatus type offers except dormant. -/
def specStatus : CivStatus → Bool
  | .dormant => false
  | _ => true

/-- The status transitions of section 3: emerging to active, active to
declining or transcended, declining to active or extinct. -/
def allowedStatusChange : CivStatus → CivStatus → Bool
  | .emerging, .active => true
  | .active, .declining => true
  | .active, .transcended => true
  | .declining, .active => true
  | .declining, .extinct => true
  | _, _ => false

/-- A legal civilization step: status unchanged, an allowed transition, or a
population-zero mutation forcing extinction. -/
def okStep (c c' : CivState) : Bool :=
  decide (c'.status = c.status) || allowedStatusChange c.status c'.status ||
    (decide (c'.population = 0) && decide (c'.status = .extinct))

/-- Civilization states reachable from creation through prerequisite-guarded
mutations. -/
inductive CivReach : CivState → Prop
  | init (t : Nat) : CivReach (newCiv t)
  | step (k : EventKind) (t : Nat) (c : CivState) :
      CivReach c → prereq k t (.civ c) = true → CivReach (mutateCiv k t c)

/-- One prerequisite-guarded civilization mutation, as a relation. -/
def CivStepRel (c c' : CivState) : Prop :=
  ∃ k t, prereq k t (.civ c) = true ∧ mutateCiv k t c = c'

/-! ## Mutation-level lemmas -/

theorem mutatePlanet_inv {k : EventKind} {t : Nat} {p : PlanetState}
    (hpre : prereq k t (.planet p) = true)
    (hinv : (!p.hasIntelligentLife || p.hasLife) = true) :
    (!(mutatePlanet k p).hasIntelligentLife || (mutatePlanet k p).hasLife) = true := by
  cases k <;> simp_all [prereq, mutatePlanet]

theorem updatedEntity_planetInv {k : EventKind} {t : Nat} {e : Entity}
    (hpre : prereq k t e.state = true) (hinv : planetInvB e = true) :
    planetInvB (updatedEntity t k e) = true := by
  cases hs : e.state with
  | star s => simp [planetInvB, updatedEntity, mutate, hs]
  | civ c => simp [planetInvB, updatedEntity, mutate, hs]
  | planet p =>
    rw [hs] at hpre
    have hinv' : (!p.hasIntelligentLife || p.hasLife) = true := by
      unfold planetInvB at hinv
      rw [hs] at hinv
      exact hinv
    simp only [planetInvB, updatedEntity, mutate, hs]
    exact mutatePlanet_inv hpre hinv'

theorem createdEntities_planetInv {k : EventKind} {t : Nat} {e : Entity} {x : Entity}
    (hx : x ∈ createdEntities t k e) : planetInvB x = true := by
  unfold createdEntities at hx
  cases hs : e.state with
  | star s => rw [hs] at hx; simp [mutate] at hx
  | civ c => rw [hs] at hx; simp [mutate] at hx
  | planet p =>
    rw [hs] at hx
    simp only [mutate] at hx
    by_cases hk : k = .CIVILIZATION_BEGINS
    · rw [if_pos hk] at hx
      rcases List.mem_singleton.mp hx with h
      rw [h]
      simp [planetInvB]
    · rw [if_neg hk] at hx
      simp at hx

theorem createdEntities_formed {k : EventKind} {t : Nat} {e : Entity} {x : Entity}
    (hx : x ∈ createdEntities t k e) : x.formedAtTick = t := by
  unfold createdEntities at hx
  cases hm : (mutate k t e.state).2 with
  | none => rw [hm] at hx; simp at hx
  | some cs =>
    rw [hm] at hx
    rcases List.mem_singleton.mp hx with h
    rw [h]

theorem mutateCiv_okStep {k : EventKind} {t : Nat} {c : CivState}
    (hpre : prereq k t (.civ c) = true) : okStep c (mutateCiv k t c) = true := by
  cases k <;> simp_all [prereq, mutateCiv, okStep, allowedStatusChange]
  all_goals tauto

theorem civReach_specStatus {c : CivState} (h : CivReach c) : specStatus c.status = true := by
  induction h with
  | init t => rfl
  | step k t c _ hpre ih =>
    cases k <;> simp_all [prereq, mutateCiv, specStatus]
    by_cases hp : c.population / 2 = 0 <;> simp [hp, specStatus]

theorem civReach_ageIdx {c : CivState} (h : CivReach c) : c.ageIdx < 16 := by
  induction h with
  | init t => simp [newCiv]
  | step k t c _ hpre ih =>
    cases k <;> simp_all [prereq, mutateCiv]

theorem mutateCiv_age_mono {k : EventKind} {t : Nat} {c : CivState}
    (hpre : prereq k t (.civ c) = true) : c.ageIdx ≤ (mutateCiv k t c).ageIdx := by
  cases k <;> simp_all [prereq, mutateCiv]

theorem terminal_no_prereq {k : EventKind} {t : Nat} {c : CivState}
    (h : c.status = .extinct ∨ c.status = .transcended) :
    prereq k t (.civ c) = false := by
  rcases h with h | h <;> cases k <;> simp [prereq, h]

theorem emerging_one_step {k : EventKind} {t : Nat} {c : CivState}
    (hst : c.status = .emerging) (hpre : prereq k t (.civ c) = true) :
    (mutateCiv k t c).status = .emerging ∨ (mutateCiv k t c).status = .active := by
  cases k <;> simp_all [prereq, mutateCiv]

theorem runDraws_of_empty {cfg : Config} {t : Nat} {store : List Entity}
    (h : eligiblePairs cfg t store = []) :
    ∀ (n : Nat) (rng : Nat), runDraws cfg t n store rng = ([], store, rng) := by
  intro n rng
  cases n with
  | zero => rfl
  | succ m =>
    unfold runDraws
    split
    · rfl
    · rename_i i0 irest heq
      rw [h] at heq
      exact absurd heq (by simp)

/-! ## Concrete fixtures used by the witnesses -/

/-- A scheduler configuration with the example 1 to 3 draw range and unit
weights. -/
def cfgW : Config := { nMin := 1, nMax := 3, weight := fun _ _ => 1 }

/-- A living planet entity, after the planet.py fixture. -/
def planetLifeW : Entity :=
  { id := "planet-03", formedAtTick := 14293, history := [],
    state := .planet { hasAtmosphere := true, hasWater := true,
                       hasLife := true, hasIntelligentLife := false } }

/-- A lifeless planet state with an atmosphere and no water. -/
def barrenPlanetW : PlanetState :=
  { hasAtmosphere := true, hasWater := false, hasLife := false,
    hasIntelligentLife := false }

/-- A small snapshot holding the living planet. -/
def snapW : Snapshot :=
  { entities := [planetLifeW], tickCount := 5, cosmicAgeYears := 40, rng := 7 }

/-- A snapshot with an empty store. -/
def emptySnapW : Snapshot :=
  { entities := [], tickCount := 1, cosmicAgeYears := 0, rng := 3 }

/-- An extinct civilization state. -/
def civExtinctW : CivState :=
  { status := .extinct, population := 0, ageIdx := 4, ageEnteredAtTick := 2,
    discoveries := 9 }

/-- An active civilization state whose age-advance gate is open through its
discovery prerequisite. -/
def civAgeGateW : CivState :=
  { status := .active, population := 5000, ageIdx := 0, ageEnteredAtTick := 1,
    discoveries := 1 }

/-- The living planet after an asteroid impact at tick 5 (its chronicle
gained one entry, state unchanged). -/
def planetAfterImpactW : Entity :=
  { id := "planet-03", formedAtTick := 14293,
    history := [{ tick := 5, kind := .ASTEROID_IMPACT, text := "asteroid impact" }],
    state := .planet { hasAtmosphere := true, hasWater := true,
                       hasLife := true, hasIntelligentLife := false } }

/-! ## The claims -/

/-- C1: every pair the Eligibility Index offers satisfies its prerequisite
on the current store; every event the draw step applies has its prerequisite
re-validated on the store at the moment of application (a failed
re-validation is skipped and redrawn, never applied); and for a planet with
hasLife false, no LIFE or CIVILIZATION family event kind has a true
prerequisite, so none is ever eligible for or applied to it, under every
weight configuration. -/
theorem scheduler_prereq_guard :
    (∀ (cfg : Config) (t : Nat) (store : List Entity) (j : Nat) (k : EventKind) (w : Nat),
        (j, k, w) ∈ eligiblePairs cfg t store → prereqAt t store j k = true) ∧
    (∀ (t : Nat) (store : List Entity) (fuel : Nat)
        (idx : List (Nat × EventKind × Nat)) (rng : Nat)
        (ev : Applied) (store' : List Entity) (rng' : Nat),
        drawOne t store fuel idx rng = (some (ev, store'), rng') →
        prereqAt t store ev.targetIdx ev.kind = true) ∧
    (∀ (p : PlanetState) (k : EventKind) (t : Nat),
        p.hasLife = false → lifeCivKind k = true → prereq k t (.planet p) = false) := by
  refine ⟨?_, ?_, ?_⟩
  · intro cfg t store j k w h
    exact eligiblePairs_prereq h
  · intro t store fuel idx rng ev store' rng' h
    exact (drawOne_some fuel idx rng ev store' rng' h).1
  · intro p k t hl hk
    cases k <;> simp_all [prereq, lifeCivKind]

/-- Witness for C1 at concrete inputs: a living planet's index pair, a
concrete draw that applied an asteroid impact, and a lifeless planet
rejecting a LIFE event. -/
theorem scheduler_prereq_guard_witness :
    prereqAt 5 [planetLifeW] 0 EventKind.LIFE_MULTICELLULAR = true ∧
    prereqAt 5 [planetLifeW] 0 EventKind.ASTEROID_IMPACT = true ∧
    prereq EventKind.LIFE_INTELLIGENCE 5 (.planet barrenPlanetW) = false :=
  ⟨scheduler_prereq_guard.1 cfgW 5 [planetLifeW] 0 .LIFE_MULTICELLULAR 1 (by decide),
   scheduler_prereq_guard.2.1 5 [planetLifeW] 4 (eligiblePairs cfgW 5 [planetLifeW]) 7
     { kind := .ASTEROID_IMPACT, targetIdx := 0, tick := 5, text := "asteroid impact" }
     [planetAfterImpactW] 1282168116 (by decide),
   scheduler_prereq_guard.2.2 barrenPlanetW .LIFE_INTELLIGENCE 5 rfl rfl⟩

/-- C2: two runs of N ticks from identical starting snapshots with identical
seeds produce identical event sequences and identical final snapshots. -/
theorem tick_deterministic :
    ∀ (cfg : Config) (seed1 seed2 : Nat) (s1 s2 : Snapshot) (n : Nat),
      seed1 = seed2 → s1 = s2 →
      (runFromSeed cfg seed1 s1 n).2 = (runFromSeed cfg seed2 s2 n).2 ∧
      (runFromSeed cfg seed1 s1 n).1 = (runFromSeed cfg seed2 s2 n).1 := by
  intro cfg seed1 seed2 s1 s2 n h1 h2
  subst h1
  subst h2
  exact ⟨rfl, rfl⟩

/-- Witness for C2: two two-tick runs from the same snapshot and seed. -/
theorem tick_deterministic_witness :
    (runFromSeed cfgW 7 snapW 2).2 = (runFromSeed cfgW 7 snapW 2).2 ∧
    (runFromSeed cfgW 7 snapW 2).1 = (runFromSeed cfgW 7 snapW 2).1 :=
  tick_deterministic cfgW 7 7 snapW snapW 2 rfl rfl

/-- C3: when load or save fails during a tick, the stored snapshot is left
exactly as it was (hence byte-identical under any serialization), and the
invoker receives a structured retryable failure, never a TickResult. -/
theorem persistence_failure_aborts :
    ∀ (cfg : Config) (env : PersistEnv) (stored : Snapshot),
      env.loadFails = true ∨ env.saveFails = true →
      (tickPersisted cfg env stored).1 = stored ∧
      failedOutcome (tickPersisted cfg env stored).2 = true ∧
      retryableOutcome (tickPersisted cfg env stored).2 = true := by
  intro cfg env stored h
  by_cases hl : env.loadFails = true
  · simp [tickPersisted, hl, failedOutcome, retryableOutcome, retryableFailure]
  · have hs : env.saveFails = true := by tauto
    simp [tickPersisted, hl, hs, failedOutcome, retryableOutcome, retryableFailure]

/-- Witness for C3: a save failure injected over the small snapshot. -/
theorem persistence_failure_aborts_witness :
    (tickPersisted cfgW { loadFails := false, saveFails := true } snapW).1 = snapW ∧
    failedOutcome (tickPersisted cfgW { loadFails := false, saveFails := true } snapW).2
      = true ∧
    retryableOutcome (tickPersisted cfgW { loadFails := false, saveFails := true } snapW).2
      = true :=
  persistence_failure_aborts cfgW { loadFails := false, saveFails := true } snapW
    (Or.inr rfl)

/-- C4: no guarded planet mutation makes hasIntelligentLife true while
hasLife is false, and a tick preserves the store-wide invariant that
hasIntelligentLife implies hasLife on every planet. -/
theorem planet_intelligent_life_invariant :
    (∀ (k : EventKind) (t : Nat) (p : PlanetState),
        prereq k t (.planet p) = true → p.hasLife = false →
        (mutatePlanet k p).hasIntelligentLife = p.hasIntelligentLife) ∧
    (∀ (cfg : Config) (snap : Snapshot),
        snap.entities.all planetInvB = true →
        ((tick cfg snap).1.entities).all planetInvB = true) := by
  constructor
  · intro k t p hpre hl
    cases k <;> simp_all [prereq, mutatePlanet]
  · intro cfg snap hstore
    exact tick_all (fun k e h1 h2 => updatedEntity_planetInv h1 h2)
      (fun k e x _ hx => createdEntities_planetInv hx) hstore

/-- Witness for C4: oceans forming on a lifeless planet leave
hasIntelligentLife alone, and a tick over the living planet preserves the
invariant. -/
theorem planet_intelligent_life_invariant_witness :
    (mutatePlanet .OCEANS_FORM barrenPlanetW).hasIntelligentLife
      = barrenPlanetW.hasIntelligentLife ∧
    ((tick cfgW snapW).1.entities).all planetInvB = true :=
  ⟨planet_intelligent_life_invariant.1 .OCEANS_FORM 5 barrenPlanetW rfl rfl,
   planet_intelligent_life_invariant.2 cfgW snapW (by decide)⟩

/-- C5: after a tick, every pre-existing entity's history has its pre-tick
history as an initial segment (entries are only appended), so history length
never shrinks. -/
theorem history_append_only :
    ∀ (cfg : Config) (snap : Snapshot) (i : Nat), i < snap.entities.length →
      (entityHistoryAt (tick cfg snap).1.entities i).take
          (entityHistoryAt snap.entities i).length = entityHistoryAt snap.entities i ∧
      (entityHistoryAt snap.entities i).length ≤
        (entityHistoryAt (tick cfg snap).1.entities i).length := by
  intro cfg snap i hi
  obtain ⟨e, hg⟩ := lt_getq_some hi
  obtain ⟨e', hg', -, -, s, hh⟩ := tick_extends cfg snap i e hg
  have h1 : entityHistoryAt snap.entities i = e.history := by
    unfold entityHistoryAt
    rw [hg]
  have h2 : entityHistoryAt (tick cfg snap).1.entities i = e'.history := by
    unfold entityHistoryAt
    rw [hg']
  rw [h1, h2, hh]
  exact ⟨take_append_self e.history s, by simp⟩

/-- Witness for C5: the living planet's history across one tick. -/
theorem history_append_only_witness :
    (entityHistoryAt (tick cfgW snapW).1.entities 0).take
        (entityHistoryAt snapW.entities 0).length = entityHistoryAt snapW.entities 0 ∧
    (entityHistoryAt snapW.entities 0).length ≤
      (entityHistoryAt (tick cfgW snapW).1.entities 0).length :=
  history_append_only cfgW snapW 0 (by decide)

/-- C6: the Epoch Clock advances by exactly 1 on every tick, and a tick over
a snapshot with an empty Eligibility Index still advances the counter by 1
while reporting an empty eventsApplied list. -/
theorem empty_tick_advances_clock :
    (∀ (cfg : Config) (snap : Snapshot),
        (tick cfg snap).1.tickCount = snap.tickCount + 1 ∧
        (tick cfg snap).2.newTickCount = snap.tickCount + 1) ∧
    (∀ (cfg : Config) (snap : Snapshot),
        eligiblePairs cfg snap.tickCount snap.entities = [] →
        (tick cfg snap).2.eventsApplied = [] ∧
        (tick cfg snap).1.tickCount = snap.tickCount + 1) := by
  constructor
  · intro cfg snap
    exact ⟨rfl, rfl⟩
  · intro cfg snap h
    constructor
    · show (runDraws cfg snap.tickCount _ snap.entities _).1 = []
      rw [runDraws_of_empty h]
    · rfl

/-- Witness for C6: a tick over the empty store. -/
theorem empty_tick_advances_clock_witness :
    (tick cfgW emptySnapW).2.eventsApplied = [] ∧
    (tick cfgW emptySnapW).1.tickCount = emptySnapW.tickCount + 1 :=
  empty_tick_advances_clock.2 cfgW emptySnapW rfl

/-- C7: every guarded civilization mutation keeps the status, follows one of
the five allowed transitions, or is a population-zero mutation forcing
extinction; every reachable civilization status lies in the five-element
specification set (never dormant); extinct and transcended are terminal (no
event's prerequisite holds there); and a single guarded step from emerging
can only stay emerging or become active, never extinct. -/
theorem civ_status_machine :
    (∀ (k : EventKind) (t : Nat) (c : CivState),
        prereq k t (.civ c) = true → okStep c (mutateCiv k t c) = true) ∧
    (∀ c : CivState, CivReach c → specStatus c.status = true) ∧
    (∀ (k : EventKind) (t : Nat) (c : CivState),
        c.status = .extinct ∨ c.status = .transcended → prereq k t (.civ c) = false) ∧
    (∀ (k : EventKind) (t : Nat) (c : CivState),
        c.status = .emerging → prereq k t (.civ c) = true →
        (mutateCiv k t c).status = .emerging ∨ (mutateCiv k t c).status = .active) :=
  ⟨fun _ _ _ h => mutateCiv_okStep h,
   fun _ h => civReach_specStatus h,
   fun _ _ _ h => terminal_no_prereq h,
   fun _ _ _ h1 h2 => emerging_one_step h1 h2⟩

/-- Witness for C7: establishment of a newly created civilization, its
reachable emerging status, and an extinct civilization rejecting war. -/
theorem civ_status_machine_witness :
    okStep (newCiv 3) (mutateCiv .CIVILIZATION_ESTABLISH 4 (newCiv 3)) = true ∧
    specStatus (newCiv 3).status = true ∧
    prereq .CIVILIZATION_WAR 9 (.civ civExtinctW) = false ∧
    ((mutateCiv .CIVILIZATION_ESTABLISH 4 (newCiv 3)).status = .emerging ∨
     (mutateCiv .CIVILIZATION_ESTABLISH 4 (newCiv 3)).status = .active) :=
  ⟨civ_status_machine.1 .CIVILIZATION_ESTABLISH 4 (newCiv 3) rfl,
   civ_status_machine.2.1 (newCiv 3) (CivReach.init 3),
   civ_status_machine.2.2.1 .CIVILIZATION_WAR 9 civExtinctW (Or.inl rfl),
   civ_status_machine.2.2.2 .CIVILIZATION_ESTABLISH 4 (newCiv 3) rfl rfl⟩

/-- C8: the age sequence has exactly 16 eras running prehistoric to
transcendent; guarded civilization mutations never decrease the age ordinal,
in one step or across any guarded-step sequence; reachable civilizations
always index inside the 16 ages; and the age-advance prerequisite demands
the minimum tick-age-in-era or the discovery prerequisite. -/
theorem civ_age_monotone :
    AGES.length = 16 ∧
    AGES.head? = some "prehistoric" ∧
    AGES.getLast? = some "transcendent" ∧
    (∀ (k : EventKind) (t : Nat) (c : CivState),
        prereq k t (.civ c) = true → c.ageIdx ≤ (mutateCiv k t c).ageIdx) ∧
    (∀ c c' : CivState, Relation.ReflTransGen CivStepRel c c' → c.ageIdx ≤ c'.ageIdx) ∧
    (∀ c : CivState, CivReach c → c.ageIdx < 16) ∧
    (∀ (t : Nat) (c : CivState),
        prereq .CIVILIZATION_AGE_ADVANCE t (.civ c) = true →
        minTicksInAge c.ageIdx ≤ t - c.ageEnteredAtTick ∨ c.ageIdx < c.discoveries) := by
  refine ⟨rfl, rfl, rfl, ?_, ?_, ?_, ?_⟩
  · intro k t c h
    exact mutateCiv_age_mono h
  · intro c c' h
    induction h with
    | refl => exact Nat.le_refl _
    | tail hbc hrel ih =>
      obtain ⟨k, t, hp, hm⟩ := hrel
      exact Nat.le_trans ih (hm ▸ mutateCiv_age_mono hp)
  · intro c h
    exact civReach_ageIdx h
  · intro t c h
    simp [prereq] at h
    tauto

/-- Witness for C8: a guarded establishment step, a one-step guarded
sequence, a newly created civilization, and an age-advance gate opened by a
discovery. -/
theorem civ_age_monotone_witness :
    AGES.length = 16 ∧
    (newCiv 3).ageIdx ≤ (mutateCiv .CIVILIZATION_ESTABLISH 4 (newCiv 3)).ageIdx ∧
    (newCiv 3).ageIdx < 16 ∧
    (minTicksInAge civAgeGateW.ageIdx ≤ 9 - civAgeGateW.ageEnteredAtTick ∨
      civAgeGateW.ageIdx < civAgeGateW.discoveries) :=
  ⟨civ_age_monotone.1,
   civ_age_monotone.2.2.2.2.1 (newCiv 3) (mutateCiv .CIVILIZATION_ESTABLISH 4 (newCiv 3))
     (Relation.ReflTransGen.single ⟨.CIVILIZATION_ESTABLISH, 4, rfl, rfl⟩),
   civ_age_monotone.2.2.2.2.2.1 (newCiv 3) (CivReach.init 3),
   civ_age_monotone.2.2.2.2.2.2 9 civAgeGateW rfl⟩

/-- C9: BigBangCommit is 1, the initial snapshot starts the tick counter at
1 with every entity formed at tick at least 1, and a tick preserves both: a
counter of at least 1 stays at least 1 and every entity, pre-existing or
created, keeps a creation tick of at least 1. -/
theorem big_bang_commit_one :
    BigBangCommit = 1 ∧
    initialSnapshot.tickCount = 1 ∧
    initialSnapshot.entities.all formedPos = true ∧
    (∀ (cfg : Config) (snap : Snapshot),
        1 ≤ snap.tickCount → snap.entities.all formedPos = true →
        1 ≤ (tick cfg snap).1.tickCount ∧
        ((tick cfg snap).1.entities).all formedPos = true) := by
  refine ⟨rfl, rfl, rfl, ?_⟩
  intro cfg snap h1 h2
  constructor
  · have hstep : (tick cfg snap).1.tickCount = snap.tickCount + 1 := rfl
    omega
  · refine tick_all ?_ ?_ h2
    · intro k e _ hP
      exact hP
    · intro k e x _ hx
      unfold formedPos
      rw [createdEntities_formed hx]
      exact decide_eq_true h1

/-- Witness for C9: the preservation step over the small snapshot. -/
theorem big_bang_commit_one_witness :
    1 ≤ (tick cfgW snapW).1.tickCount ∧
    ((tick cfgW snapW).1.entities).all formedPos = true :=
  big_bang_commit_one.2.2.2 cfgW snapW (by decide) (by decide)

/-- C10: cosmic age is 0 at universe initialization (in years and hence in
CosmicAgeMyr), every row of the time-scale table carries a strictly positive
time delta (as does every era), and consequently cosmic age strictly
increases on every tick. -/
theorem cosmic_age_increasing :
    cosmicAgeMyr initialSnapshot = 0 ∧
    initialSnapshot.cosmicAgeYears = 0 ∧
    (∀ en ∈ timeScaleTable, 0 < en.timeDeltaPerTickYears) ∧
    (∀ e : Era, 0 < timeDeltaYears e) ∧
    (∀ (cfg : Config) (snap : Snapshot),
        snap.cosmicAgeYears < (tick cfg snap).1.cosmicAgeYears) := by
  refine ⟨?_, rfl, by decide, ?_, ?_⟩
  · simp [cosmicAgeMyr, initialSnapshot]
  · intro e
    cases e <;> decide
  · intro cfg snap
    have hstep : (tick cfg snap).1.cosmicAgeYears
        = snap.cosmicAgeYears + timeDeltaYears (currentEra snap.tickCount) := rfl
    have hd : 0 < timeDeltaYears (currentEra snap.tickCount) := by
      cases currentEra snap.tickCount <;> decide
    omega

/-- Witness for C10: the early-universe table row and a concrete tick. -/
theorem cosmic_age_increasing_witness :
    0 < ({ era := .earlyUniverse, ticksPerEraStart := 1,
           timeDeltaPerTickYears := timeDeltaYears .earlyUniverse } : TimeScaleEntry).timeDeltaPerTickYears ∧
    snapW.cosmicAgeYears < (tick cfgW snapW).1.cosmicAgeYears :=
  ⟨cosmic_age_increasing.2.2.1
     { era := .earlyUniverse, ticksPerEraStart := 1,
       timeDeltaPerTickYears := timeDeltaYears .earlyUniverse } (by decide),
   cosmic_age_increasing.2.2.2.2 cfgW snapW⟩

end CommitUniverse
